import Mathlib

/-!
Verification development for the saga-python engine runtime
(src/saga/engine/engine.py) against its natural-language specification.

The source file implements the option schema, the singleton accessor
getEngine, the search-path construction in Engine._load_adaptors and the
introspection stub Engine.list_loaded_adaptors.  The configuration store
(saga.engine.config), the singleton metaclass (saga.utils.singleton), the
backend loader and the resolution protocol are only declared or sketched in
documentation; those parts are modelled from the specification, and each
such definition says so in its doc comment.
-/

/- ===================== Configuration subsystem ===================== -/

/-- Declared types of configuration options; the source schema uses the
Python types str and list, the spec names string, boolean, integer and
list-of-string. -/
inductive ConfigType : Type
  | str
  | boolean
  | integer
  | listOfString
deriving DecidableEq, Repr

/-- Runtime configuration values, one constructor per declared type. -/
inductive ConfigValue : Type
  | vStr (s : String)
  | vBool (b : Bool)
  | vInt (i : Int)
  | vList (l : List String)
deriving DecidableEq, Repr

/-- Embeds one entry of the option-schema dictionaries of engine.py
(fields category, name, type, default, valid_options, documentation,
env_variable). -/
structure ConfigOption : Type where
  category : String
  name : String
  declared_type : ConfigType
  default : ConfigValue
  valid_options : Option (List ConfigValue)
  documentation : String
  env_variable : Option String
deriving DecidableEq, Repr

/-- Embeds _all_engine_config_options from engine.py: the two options the
engine registers for its own category saga.engine. -/
def _all_engine_config_options : List ConfigOption :=
  [ { category := "saga.engine"
      name := "foo"
      declared_type := ConfigType.str
      default := ConfigValue.vStr "bar"
      valid_options := none
      documentation := "dummy config option for unit test."
      env_variable := none }
  , { category := "saga.engine"
      name := "adaptor_paths"
      declared_type := ConfigType.listOfString
      default := ConfigValue.vList []
      valid_options := none
      documentation := "additional adaptor search paths."
      env_variable := none } ]

/-- Configuration errors named by the spec taxonomy. -/
inductive ConfigError : Type
  | duplicateCategory (category : String)
  | unknownOption (name : String)
  | invalidConfigValue (category : String) (name : String)
deriving DecidableEq, Repr

/-- Modelled from the spec: parsing an environment string under a declared
type (saga.engine.config is not under src).  A string parses as itself, a
boolean from True or False, an integer through integer syntax, a list as
comma separated entries. -/
def parseValue : ConfigType → String → Option ConfigValue
  | ConfigType.str, s => some (ConfigValue.vStr s)
  | ConfigType.boolean, s =>
      if s = "True" then some (ConfigValue.vBool true)
      else if s = "False" then some (ConfigValue.vBool false)
      else none
  | ConfigType.integer, s => (s.toInt?).map ConfigValue.vInt
  | ConfigType.listOfString, s => some (ConfigValue.vList (s.splitOn ","))

/-- Modelled from the spec: installing one option at category-registration
time (saga.engine.config is not under src).  The default is installed
unless env_variable is set and present in the process environment; a
present value that parses under the declared type overrides the default,
and a present but unparseable value fails with InvalidConfigValue. -/
def installOption (env : String → Option String) (opt : ConfigOption) :
    Except ConfigError ConfigValue :=
  match opt.env_variable with
  | none => Except.ok opt.default
  | some v =>
    match env v with
    | none => Except.ok opt.default
    | some s =>
      match parseValue opt.declared_type s with
      | some cv => Except.ok cv
      | none => Except.error (ConfigError.invalidConfigValue opt.category opt.name)

/-- Modelled from the spec: register_category installs the value of every
option of the schema in order, failing on the first option whose present
environment value does not parse (saga.engine.config is not under src). -/
def registerCategory (env : String → Option String) :
    List ConfigOption → Except ConfigError (List (String × ConfigValue))
  | [] => Except.ok []
  | opt :: rest =>
    match installOption env opt with
    | Except.error e => Except.error e
    | Except.ok v =>
      match registerCategory env rest with
      | Except.error e => Except.error e
      | Except.ok store => Except.ok ((opt.name, v) :: store)

/-- Modelled from the spec: get_value returns the current value of a
registered option and fails with UnknownOption otherwise
(saga.engine.config is not under src). -/
def getValue (store : List (String × ConfigValue)) (name : String) :
    Except ConfigError ConfigValue :=
  match store.find? (fun p => p.1 == name) with
  | some p => Except.ok p.2
  | none => Except.error (ConfigError.unknownOption name)

/- ===================== Search-path construction ===================== -/

/-- Entries of the Python list built by Engine._load_adaptors.  The list
is heterogeneous: the first append pushes a single directory string, the
second pushes the configured adaptor_paths value, which is itself a list. -/
inductive PathEntry : Type
  | single (p : String)
  | group (ps : List String)
deriving DecidableEq, Repr

/-- Embeds Engine._load_adaptors from engine.py: append the directory of
the engine module, then append the value of the adaptor_paths option.  The
configured value is a list and is appended as one element. -/
def load_adaptors_paths (builtin_dir : String) (configured : List String) :
    List PathEntry :=
  [PathEntry.single builtin_dir, PathEntry.group configured]

/-- Follows the words of the spec, for comparison with the source: the
search-path list is flat, the built-in directory first and then each
configured path as its own element, in the order supplied. -/
def searchPathSpec (builtin_dir : String) (configured : List String) :
    List PathEntry :=
  PathEntry.single builtin_dir :: configured.map PathEntry.single

/- ===================== Engine introspection ===================== -/

/-- Embeds the state the Engine object holds after initialization: its
configuration store (the object keeps no adaptor registry attribute). -/
structure EngineObj : Type where
  configStore : List (String × ConfigValue)

/-- Embeds Engine.list_loaded_adaptors from engine.py: the body is the
pass statement, so the call returns None whatever the engine state is. -/
def list_loaded_adaptors (_engine : EngineObj) : Option (List String) :=
  none

/- ===================== Claim theorems: configuration ===================== -/

/-- C7: after the engine registers its own configuration category, whose
first option is named foo with default bar and no environment variable
mapped, reading option foo of the resulting store returns bar, for every
process environment. -/
theorem engine_config_foo_default (env : String → Option String) :
    (registerCategory env _all_engine_config_options).bind
      (fun store => getValue store "foo") = Except.ok (ConfigValue.vStr "bar") :=
  rfl

/-- C8: when an option maps an environment variable that is present in the
process environment at registration time and whose value parses under the
declared type, a subsequent read of the option returns the parsed
environment value, not the declared default. -/
theorem env_override_precedence (opt : ConfigOption)
    (env : String → Option String) (v s : String) (cv : ConfigValue)
    (hv : opt.env_variable = some v) (henv : env v = some s)
    (hp : parseValue opt.declared_type s = some cv) :
    installOption env opt = Except.ok cv ∧
    (registerCategory env [opt]).bind
      (fun store => getValue store opt.name) = Except.ok cv := by
  have hinst : installOption env opt = Except.ok cv := by
    simp only [installOption, hv, henv, hp]
  refine ⟨hinst, ?_⟩
  unfold registerCategory
  rw [hinst]
  simp [registerCategory, getValue, Except.bind]

/-- Witness for C8 at a concrete option and environment: the environment
value baz wins over the declared default bar. -/
theorem env_override_precedence_witness :
    installOption (fun k => if k = "SAGA_FOO" then some "baz" else none)
      { category := "saga.engine", name := "foo",
        declared_type := ConfigType.str, default := ConfigValue.vStr "bar",
        valid_options := none, documentation := "d",
        env_variable := some "SAGA_FOO" } = Except.ok (ConfigValue.vStr "baz") ∧
    (registerCategory (fun k => if k = "SAGA_FOO" then some "baz" else none)
      [{ category := "saga.engine", name := "foo",
         declared_type := ConfigType.str, default := ConfigValue.vStr "bar",
         valid_options := none, documentation := "d",
         env_variable := some "SAGA_FOO" }]).bind
      (fun store => getValue store "foo") = Except.ok (ConfigValue.vStr "baz") :=
  env_override_precedence _ _ "SAGA_FOO" "baz" (ConfigValue.vStr "baz")
    rfl rfl rfl

/-- C10: both options the engine registers for its own category declare no
environment variable, and as a consequence registration of the engine
schema yields the same installed values under any two process
environments. -/
theorem engine_options_env_independent :
    (∀ opt ∈ _all_engine_config_options, opt.env_variable = none) ∧
    (∀ env1 env2 : String → Option String,
      registerCategory env1 _all_engine_config_options =
        registerCategory env2 _all_engine_config_options) :=
  ⟨by decide, fun _ _ => rfl⟩

/- ===================== Claim theorems: search path ===================== -/

/-- C3: evaluating the search-path construction of Engine._load_adaptors
at a configured list of two paths shows the configured list is appended as
one nested element, so the result is not the flat sequence the spec
describes, in which each configured path is its own element. -/
theorem load_adaptors_paths_not_flat :
    load_adaptors_paths "/saga/engine" ["p1", "p2"] =
      [PathEntry.single "/saga/engine", PathEntry.group ["p1", "p2"]] ∧
    load_adaptors_paths "/saga/engine" ["p1", "p2"] ≠
      searchPathSpec "/saga/engine" ["p1", "p2"] :=
  ⟨rfl, by decide⟩

/- ===================== Claim theorems: introspection ===================== -/

/-- C9: list_loaded_adaptors returns None for every engine state; the
introspection call yields no adaptor information. -/
theorem list_loaded_adaptors_none (engine : EngineObj) :
    list_loaded_adaptors engine = none :=
  rfl

/- ===================== Resolution engine ===================== -/

/-- Modelled from the spec: the outcome of one backend construction
attempt — a bound instance, the soft cannot-handle decline, or a hard
operational error (the backends and the resolution protocol are not under
src; the protocol is sketched in the Engine docstring). -/
inductive FactoryResult (Inst : Type) : Type
  | bound (inst : Inst)
  | declined (reason : String)
  | hardError (err : String)

/-- Modelled from the spec: one installed backend claim for a capability
category and a URL scheme, with its constructor reference and its
registration order (the registry is only sketched in the Engine
docstring). -/
structure BackendDescriptor (Session Inst : Type) : Type where
  category : String
  scheme : String
  factory : String → Session → FactoryResult Inst
  registration_order : Nat

/-- Modelled from the spec: resolution errors surfaced to the resolve
caller, hard errors kept with the category and scheme that triggered
them. -/
inductive ResolveError : Type
  | malformedURL (url : String)
  | noBackendForScheme (category : String) (scheme : String)
  | allBackendsDeclined (category : String) (scheme : String)
      (reasons : List String)
  | hardError (category : String) (scheme : String) (err : String)
deriving DecidableEq, Repr

/-- Modelled from the spec: the scheme of a URL is the substring before
the first colon-slash-slash delimiter; absent the delimiter the URL is
malformed. -/
def schemeChars : List Char → Option (List Char)
  | ':' :: '/' :: '/' :: _ => some []
  | c :: rest => (schemeChars rest).map (fun cs => c :: cs)
  | [] => none

/-- Modelled from the spec: parse the scheme out of a URL string. -/
def parseScheme (url : String) : Option String :=
  (schemeChars url.data).map (fun cs => String.mk cs)

/-- Modelled from the spec: registry lookup returns the descriptors of a
category and scheme bucket in registration order, the empty sequence when
none registered. -/
def lookupRegistry {Session Inst : Type}
    (reg : List (BackendDescriptor Session Inst))
    (category scheme : String) : List (BackendDescriptor Session Inst) :=
  reg.filter (fun d => d.category == category && d.scheme == scheme)

/-- Modelled from the spec: try the candidates in order, returning the
first bound instance, recording each decline reason and moving on, failing
at once on a hard error, and aggregating the recorded declines when every
candidate declined. -/
def tryCandidates {Session Inst : Type} (category scheme url : String)
    (session : Session) (declined : List String) :
    List (BackendDescriptor Session Inst) → Except ResolveError Inst
  | [] => Except.error (ResolveError.allBackendsDeclined category scheme declined)
  | d :: rest =>
    match d.factory url session with
    | FactoryResult.bound inst => Except.ok inst
    | FactoryResult.declined r =>
        tryCandidates category scheme url session (declined ++ [r]) rest
    | FactoryResult.hardError e =>
        Except.error (ResolveError.hardError category scheme e)

/-- Modelled from the spec: resolve parses the scheme, looks the bucket up,
fails with NoBackendForScheme on an empty bucket and otherwise tries the
candidates in registration order. -/
def resolve {Session Inst : Type} (reg : List (BackendDescriptor Session Inst))
    (category url : String) (session : Session) : Except ResolveError Inst :=
  match parseScheme url with
  | none => Except.error (ResolveError.malformedURL url)
  | some scheme =>
    match lookupRegistry reg category scheme with
    | [] => Except.error (ResolveError.noBackendForScheme category scheme)
    | c :: cs => tryCandidates category scheme url session [] (c :: cs)

/-- Helper: a run of declining candidates is skipped, only growing the
recorded decline list. -/
theorem tryCandidates_skip_declines {Session Inst : Type}
    (category scheme url : String) (session : Session)
    (pre : List (BackendDescriptor Session Inst))
    (hpre : ∀ d', d' ∈ pre → ∃ r, d'.factory url session =
      FactoryResult.declined r) :
    ∀ (acc : List String) (rest : List (BackendDescriptor Session Inst)),
      ∃ acc', tryCandidates category scheme url session acc (pre ++ rest) =
        tryCandidates category scheme url session acc' rest := by
  induction pre with
  | nil => exact fun acc rest => ⟨acc, rfl⟩
  | cons p ps ih =>
    intro acc rest
    obtain ⟨r, hr⟩ := hpre p (List.mem_cons_self _ _)
    have ih' := ih (fun d' hd' => hpre d' (List.mem_cons_of_mem _ hd'))
      (acc ++ [r]) rest
    simpa [tryCandidates, hr] using ih'

/-- Helper: resolve reduces to trying the looked-up bucket when the scheme
parses and the bucket is nonempty. -/
theorem resolve_eq_tryCandidates {Session Inst : Type}
    (reg : List (BackendDescriptor Session Inst)) (category url scheme : String)
    (session : Session) (pre post : List (BackendDescriptor Session Inst))
    (d : BackendDescriptor Session Inst)
    (hs : parseScheme url = some scheme)
    (hl : lookupRegistry reg category scheme = pre ++ d :: post) :
    resolve reg category url session =
      tryCandidates category scheme url session [] (pre ++ d :: post) := by
  cases pre with
  | nil => simp [resolve, hs, hl]
  | cons p ps => simp [resolve, hs, hl]

/- ===================== Claim theorems: resolution ===================== -/

/-- C1: resolve tries the candidates registered for the scheme of the URL
in registration order; every candidate that raises the soft decline signal
is passed over in favour of the next one, and the first candidate whose
construction succeeds has its instance returned, whatever candidates
follow it. -/
theorem resolve_first_success {Session Inst : Type}
    (reg : List (BackendDescriptor Session Inst)) (category url scheme : String)
    (session : Session) (pre post : List (BackendDescriptor Session Inst))
    (d : BackendDescriptor Session Inst) (inst : Inst)
    (hs : parseScheme url = some scheme)
    (hl : lookupRegistry reg category scheme = pre ++ d :: post)
    (hpre : ∀ d', d' ∈ pre → ∃ r, d'.factory url session =
      FactoryResult.declined r)
    (hd : d.factory url session = FactoryResult.bound inst) :
    resolve reg category url session = Except.ok inst := by
  obtain ⟨acc', hacc⟩ := tryCandidates_skip_declines category scheme url session
    pre hpre [] (d :: post)
  rw [resolve_eq_tryCandidates reg category url scheme session pre post d hs hl,
    hacc]
  simp [tryCandidates, hd]

/-- Witness for C1: of two backends registered for category job and scheme
http, the first declines and the second binds instance 42; resolve returns
42. -/
theorem resolve_first_success_witness :
    resolve
      [ { category := "job", scheme := "http",
          factory := fun _ _ => FactoryResult.declined "cannot handle this URL",
          registration_order := 0 }
      , { category := "job", scheme := "http",
          factory := fun _ _ => (FactoryResult.bound 42 : FactoryResult Nat),
          registration_order := 1 } ]
      "job" "http://remote.host.net/" () = Except.ok 42 :=
  resolve_first_success _ "job" "http://remote.host.net/" "http" ()
    [ { category := "job", scheme := "http",
        factory := fun _ _ => FactoryResult.declined "cannot handle this URL",
        registration_order := 0 } ] []
    { category := "job", scheme := "http",
      factory := fun _ _ => (FactoryResult.bound 42 : FactoryResult Nat),
      registration_order := 1 } 42
    rfl rfl
    (fun d' hd' => by
      rw [List.mem_singleton.mp hd']
      exact ⟨"cannot handle this URL", rfl⟩)
    rfl

/-- C5: when a candidate raises a hard operational error, resolve
propagates it at once; the candidates after it are never tried, whatever
they would have returned. -/
theorem resolve_hard_error_short_circuit {Session Inst : Type}
    (reg : List (BackendDescriptor Session Inst)) (category url scheme : String)
    (session : Session) (pre post : List (BackendDescriptor Session Inst))
    (d : BackendDescriptor Session Inst) (e : String)
    (hs : parseScheme url = some scheme)
    (hl : lookupRegistry reg category scheme = pre ++ d :: post)
    (hpre : ∀ d', d' ∈ pre → ∃ r, d'.factory url session =
      FactoryResult.declined r)
    (hd : d.factory url session = FactoryResult.hardError e) :
    resolve reg category url session =
      Except.error (ResolveError.hardError category scheme e) := by
  obtain ⟨acc', hacc⟩ := tryCandidates_skip_declines category scheme url session
    pre hpre [] (d :: post)
  rw [resolve_eq_tryCandidates reg category url scheme session pre post d hs hl,
    hacc]
  simp [tryCandidates, hd]

/-- Witness for C5: the first candidate raises a hard error and a later
candidate would have bound instance 42; resolve still propagates the hard
error. -/
theorem resolve_hard_error_short_circuit_witness :
    resolve
      [ { category := "job", scheme := "http",
          factory := fun _ _ =>
            (FactoryResult.hardError "credentials rejected" : FactoryResult Nat),
          registration_order := 0 }
      , { category := "job", scheme := "http",
          factory := fun _ _ => (FactoryResult.bound 42 : FactoryResult Nat),
          registration_order := 1 } ]
      "job" "http://remote.host.net/" () =
      Except.error (ResolveError.hardError "job" "http" "credentials rejected") :=
  resolve_hard_error_short_circuit _ "job" "http://remote.host.net/" "http" ()
    []
    [ { category := "job", scheme := "http",
        factory := fun _ _ => (FactoryResult.bound 42 : FactoryResult Nat),
        registration_order := 1 } ]
    { category := "job", scheme := "http",
      factory := fun _ _ =>
        (FactoryResult.hardError "credentials rejected" : FactoryResult Nat),
      registration_order := 0 }
    "credentials rejected" rfl rfl
    (fun d' hd' => absurd hd' (List.not_mem_nil d'))
    rfl

/-- C6: when the scheme of the URL parses but no backend is registered for
it under the requested category, resolve fails with NoBackendForScheme
carrying that category and that scheme. -/
theorem resolve_no_backend_for_scheme {Session Inst : Type}
    (reg : List (BackendDescriptor Session Inst)) (category url scheme : String)
    (session : Session)
    (hs : parseScheme url = some scheme)
    (hl : lookupRegistry reg category scheme = []) :
    resolve reg category url session =
      Except.error (ResolveError.noBackendForScheme category scheme) := by
  simp [resolve, hs, hl]

/-- Witness for C6: with a registry holding only an http job backend, a
resolve for category job and an ftp URL fails with NoBackendForScheme
carrying job and ftp. -/
theorem resolve_no_backend_for_scheme_witness :
    resolve
      [ { category := "job", scheme := "http",
          factory := fun _ _ => (FactoryResult.bound 42 : FactoryResult Nat),
          registration_order := 0 } ]
      "job" "ftp://x" () =
      Except.error (ResolveError.noBackendForScheme "job" "ftp") :=
  resolve_no_backend_for_scheme _ "job" "ftp://x" "ftp" () rfl rfl

/- ===================== Backend discovery ===================== -/

/-- Modelled from the spec: one claim a backend module declares on load, a
category, a scheme and a constructor reference (the loader is not
implemented under src). -/
structure BackendClaim (Session Inst : Type) : Type where
  category : String
  scheme : String
  factory : String → Session → FactoryResult Inst

/-- Modelled from the spec: a discoverable backend module; loading it
either yields its declared claims or fails with a load error such as a
missing dependency or a malformed declaration. -/
structure BackendModule (Session Inst : Type) : Type where
  name : String
  load : Except String (List (BackendClaim Session Inst))

/-- Modelled from the spec: the state discovery threads through the
modules — the registry built so far, the error log, and the strictly
increasing registration counter. -/
structure DiscoverState (Session Inst : Type) : Type where
  registry : List (BackendDescriptor Session Inst)
  errorLog : List String
  counter : Nat

/-- Modelled from the spec: turn the claims of one loaded module into
descriptors with consecutive registration orders from a start counter. -/
def claimsToDescriptors {Session Inst : Type} (start : Nat) :
    List (BackendClaim Session Inst) → List (BackendDescriptor Session Inst)
  | [] => []
  | c :: rest =>
    { category := c.category, scheme := c.scheme, factory := c.factory,
      registration_order := start } :: claimsToDescriptors (start + 1) rest

/-- Modelled from the spec: load one module in isolation — a load failure
is logged at error level and the module is skipped, a success appends the
descriptors of its claims and advances the counter. -/
def loadOne {Session Inst : Type} (st : DiscoverState Session Inst)
    (m : BackendModule Session Inst) : DiscoverState Session Inst :=
  match m.load with
  | Except.error e =>
      { st with errorLog := st.errorLog ++ [m.name ++ ": " ++ e] }
  | Except.ok claims =>
      { registry := st.registry ++ claimsToDescriptors st.counter claims
        errorLog := st.errorLog
        counter := st.counter + claims.length }

/-- Modelled from the spec: discovery folds the module list through the
isolated per-module loader; the fold is total, so no load failure can
escape the overall discovery call. -/
def discover {Session Inst : Type} (modules : List (BackendModule Session Inst)) :
    DiscoverState Session Inst :=
  modules.foldl loadOne { registry := [], errorLog := [], counter := 0 }

/-- Helper: the registry and counter a discovery fold produces depend only
on the registry and counter it starts from, not on the log. -/
theorem foldl_loadOne_registry_counter {Session Inst : Type}
    (ms : List (BackendModule Session Inst)) :
    ∀ (st1 st2 : DiscoverState Session Inst),
      st1.registry = st2.registry → st1.counter = st2.counter →
      (ms.foldl loadOne st1).registry = (ms.foldl loadOne st2).registry ∧
        (ms.foldl loadOne st1).counter = (ms.foldl loadOne st2).counter := by
  induction ms with
  | nil => exact fun st1 st2 hr hc => ⟨hr, hc⟩
  | cons m rest ih =>
    intro st1 st2 hr hc
    refine ih (loadOne st1 m) (loadOne st2 m) ?_ ?_ <;>
      cases hm : m.load <;> simp [loadOne, hm, hr, hc]

/-- Helper: an entry of the error log survives the rest of the discovery
fold. -/
theorem foldl_loadOne_log_mono {Session Inst : Type}
    (ms : List (BackendModule Session Inst)) :
    ∀ (st : DiscoverState Session Inst) (x : String), x ∈ st.errorLog →
      x ∈ (ms.foldl loadOne st).errorLog := by
  induction ms with
  | nil => exact fun st x hx => hx
  | cons m rest ih =>
    intro st x hx
    refine ih (loadOne st m) x ?_
    cases hm : m.load <;> simp [loadOne, hm, hx]

/- ===================== Claim theorems: discovery ===================== -/

/-- C4: a module whose load fails is logged at error level and skipped;
discovery still registers exactly the descriptors of the other modules, in
their order and with their registration counters unchanged, and the
failure never escapes the total discovery fold. -/
theorem discover_isolates_failures {Session Inst : Type}
    (ms1 ms2 : List (BackendModule Session Inst))
    (bad : BackendModule Session Inst) (e : String)
    (hbad : bad.load = Except.error e) :
    (discover (ms1 ++ bad :: ms2)).registry = (discover (ms1 ++ ms2)).registry ∧
      (bad.name ++ ": " ++ e) ∈ (discover (ms1 ++ bad :: ms2)).errorLog := by
  constructor
  · unfold discover
    rw [List.foldl_append, List.foldl_append, List.foldl_cons]
    have hskip : loadOne (ms1.foldl loadOne
        { registry := [], errorLog := [], counter := 0 }) bad =
        { registry := (ms1.foldl loadOne
            { registry := [], errorLog := [], counter := 0 }).registry
          errorLog := (ms1.foldl loadOne
            { registry := [], errorLog := [], counter := 0 }).errorLog ++
            [bad.name ++ ": " ++ e]
          counter := (ms1.foldl loadOne
            { registry := [], errorLog := [], counter := 0 }).counter } := by
      simp [loadOne, hbad]
    rw [hskip]
    exact (foldl_loadOne_registry_counter ms2
      { registry := (ms1.foldl loadOne
          { registry := [], errorLog := [], counter := 0 }).registry
        errorLog := (ms1.foldl loadOne
          { registry := [], errorLog := [], counter := 0 }).errorLog ++
          [bad.name ++ ": " ++ e]
        counter := (ms1.foldl loadOne
          { registry := [], errorLog := [], counter := 0 }).counter }
      (ms1.foldl loadOne { registry := [], errorLog := [], counter := 0 })
      rfl rfl).1
  · unfold discover
    rw [List.foldl_append, List.foldl_cons]
    refine foldl_loadOne_log_mono ms2 _ _ ?_
    simp [loadOne, hbad]

/-- Witness for C4: of three modules the second fails to load; discovery
registers the claims of the first and third exactly as if the second were
absent, and logs the failure of the second. -/
theorem discover_isolates_failures_witness :
    (discover
      [ ({ name := "saga_adaptor_one",
           load := Except.ok
             [ { category := "job", scheme := "gram",
                 factory := fun _ _ => (FactoryResult.bound 1 : FactoryResult Nat) } ] }
          : BackendModule Unit Nat)
      , { name := "saga_adaptor_two", load := Except.error "missing dependency" }
      , { name := "saga_adaptor_three",
          load := Except.ok
            [ { category := "file", scheme := "ftp",
                factory := fun _ _ => FactoryResult.bound 3 } ] } ]).registry =
    (discover
      [ ({ name := "saga_adaptor_one",
           load := Except.ok
             [ { category := "job", scheme := "gram",
                 factory := fun _ _ => (FactoryResult.bound 1 : FactoryResult Nat) } ] }
          : BackendModule Unit Nat)
      , { name := "saga_adaptor_three",
          load := Except.ok
            [ { category := "file", scheme := "ftp",
                factory := fun _ _ => FactoryResult.bound 3 } ] } ]).registry ∧
    ("saga_adaptor_two" ++ ": " ++ "missing dependency") ∈
      (discover
        [ ({ name := "saga_adaptor_one",
             load := Except.ok
               [ { category := "job", scheme := "gram",
                   factory := fun _ _ => (FactoryResult.bound 1 : FactoryResult Nat) } ] }
            : BackendModule Unit Nat)
        , { name := "saga_adaptor_two", load := Except.error "missing dependency" }
        , { name := "saga_adaptor_three",
            load := Except.ok
              [ { category := "file", scheme := "ftp",
                  factory := fun _ _ => FactoryResult.bound 3 } ] } ]).errorLog :=
  discover_isolates_failures
    [ { name := "saga_adaptor_one",
        load := Except.ok
          [ { category := "job", scheme := "gram",
              factory := fun _ _ => FactoryResult.bound 1 } ] } ]
    [ { name := "saga_adaptor_three",
        load := Except.ok
          [ { category := "file", scheme := "ftp",
              factory := fun _ _ => FactoryResult.bound 3 } ] } ]
    { name := "saga_adaptor_two", load := Except.error "missing dependency" }
    "missing dependency" rfl

/- ===================== Singleton lifecycle ===================== -/

/-- Modelled from the spec: the process-wide singleton state behind the
Engine class (the Singleton metaclass of saga.utils.singleton is not under
src).  The engine is created lazily on first request and kept; instance
identity is modelled as a numeric id drawn from an allocation counter. -/
structure EngineProcState : Type where
  ready : Option Nat
  nextId : Nat
deriving DecidableEq, Repr

/-- Modelled from the spec: one call of the Engine constructor — it
creates and stores the instance on first call and returns the stored
instance unchanged afterwards. -/
def engineCtor (st : EngineProcState) : Nat × EngineProcState :=
  match st.ready with
  | some i => (i, st)
  | none => (st.nextId, { ready := some st.nextId, nextId := st.nextId + 1 })

/-- Embeds getEngine from engine.py: it returns Engine(), one constructor
call. -/
def getEngine (st : EngineProcState) : Nat × EngineProcState :=
  engineCtor st

/-- Modelled from the spec: a sequence of n engine requests from a state,
listing the returned instance of every call. -/
def runEngineCalls : Nat → EngineProcState → List Nat × EngineProcState
  | 0, st => ([], st)
  | n + 1, st =>
    let p := getEngine st
    let q := runEngineCalls n p.2
    (p.1 :: q.1, q.2)

/-- Helper: once the instance exists, every request returns it and leaves
the state unchanged. -/
theorem runEngineCalls_ready {i : Nat} :
    ∀ (n : Nat) (st : EngineProcState), st.ready = some i →
      runEngineCalls n st = (List.replicate n i, st) := by
  intro n
  induction n with
  | zero => intro st _; rfl
  | succ m ih =>
    intro st hst
    have hct : engineCtor st = (i, st) := by simp [engineCtor, hst]
    simp [runEngineCalls, getEngine, hct, ih st hst, List.replicate]

/- ===================== Claim theorems: singleton ===================== -/

/-- C2: from any process state, a sequence of engine requests — each one a
getEngine call, itself one Engine constructor call — returns the instance
of the first call every time, so any two of the returned references
compare equal. -/
theorem engine_singleton_identity (st : EngineProcState) (n : Nat) :
    (runEngineCalls (n + 1) st).1 = List.replicate (n + 1) (getEngine st).1 := by
  cases hst : st.ready with
  | some i =>
    have h := runEngineCalls_ready (n + 1) st hst
    have hct : engineCtor st = (i, st) := by simp [engineCtor, hst]
    simp [h, getEngine, hct]
  | none =>
    have hct : engineCtor st =
        (st.nextId, { ready := some st.nextId, nextId := st.nextId + 1 }) := by
      simp [engineCtor, hst]
    have h := runEngineCalls_ready n
      ({ ready := some st.nextId, nextId := st.nextId + 1 } : EngineProcState) rfl
    simp [runEngineCalls, getEngine, hct, h, List.replicate]
